import Mathlib

/-!
# Verification of the nostr-excalibur clone pipeline

Shallow embedding of `handleCloneEvents` from `src/App.tsx` (the single
source file of the repository).  The React component's relevant state
(`npub`, `relays`, `events`, `nsec`, `isLoading`, `error`, `status`,
`isModalOpen`) is modelled by `AppState`; the trusted library boundary
(nostr-tools: `nip19.decode`, `getPublicKey`, `finalizeEvent`'s hash and
signature primitives, `SimplePool.querySync`, per-relay publish acceptance,
and the wall clock `Date.now`) is modelled by an environment `Env` of
oracle functions.  The pipeline is a pure function from an environment and
a pre-invocation state to the post-invocation state together with a trace
of the observable relay actions (the query, each per-event publish with
its first-success outcome, and each 50 ms pacing delay).
-/

namespace Excalibur

/-- JS `String.prototype.startsWith`: the first string begins with the
second, as a test on the underlying character sequences. -/
def strStartsWith (s p : String) : Bool :=
  p.data.isPrefixOf s.data

/-- The `NostrEvent` record of `App.tsx` (nostr-tools `Event` shape). -/
structure NostrEvent where
  id : String
  pubkey : String
  created_at : Nat
  kind : Nat
  tags : List (List String)
  content : String
  sig : String
deriving DecidableEq, Repr

/-- The filter object passed to `pool.querySync` : `{kinds, authors, limit}`. -/
structure Filter where
  kinds : List Nat
  authors : List String
  limit : Nat
deriving DecidableEq, Repr

/-- Result of `nip19.decode`: the tagged payload.  `npub` carries the hex
public key string (`decoded.data as string`), `nsec` carries the secret key
bytes (`decoded.data as Uint8Array`), `other` stands for any other NIP-19
category (`nprofile`, `note`, ...). -/
inductive Decoded where
  | npub (data : String)
  | nsec (data : List Nat)
  | other
deriving DecidableEq, Repr

/-- Oracles for the trusted library boundary.  `decode` returns
`Except.error msg` when `nip19.decode` throws with message `msg`.
`querySync relays filter` is the merged, deduplicated event list the relay
pool returns.  `now i` is `Math.floor(Date.now() / 1000)` as sampled at the
`i`-th transformation (the clock is sampled once per cloned event).
`eventHash` and `sign` are nostr-tools' canonical event hash and Schnorr
signature over the id.  `accept i r` resolves the `i`-th event's publish
attempt on relay `r`: `true` iff that relay accepts the event. -/
structure Env where
  decode : String → Except String Decoded
  getPublicKey : List Nat → String
  querySync : List String → Filter → List NostrEvent
  now : Nat → Nat
  eventHash : NostrEvent → String
  sign : String → List Nat → String
  accept : Nat → String → Bool

/-- The component state touched by `handleCloneEvents`. -/
structure AppState where
  npub : String
  relays : List String
  events : List NostrEvent
  nsec : String
  isLoading : Bool
  error : Option String
  status : String
  isModalOpen : Bool
deriving DecidableEq, Repr

/-- Observable relay-facing actions of one invocation, in order. -/
inductive Action where
  | query (relays : List String) (filt : Filter)
  | publish (idx : Nat) (relays : List String) (ok : Bool)
  | delay (ms : Nat)
deriving DecidableEq, Repr

/-- `true` iff the action is a relay query. -/
def Action.isQuery : Action → Bool
  | Action.query _ _ => true
  | _ => false

/-- `true` iff the action is a per-event publish. -/
def Action.isPublish : Action → Bool
  | Action.publish _ _ _ => true
  | _ => false

/-- The template built for one source event before signing:
`{...event, pubkey: newPubkey, created_at: Math.floor(Date.now()/1000),
id: '', sig: ''}` with the clock sample for index `i`. -/
def cloneTemplate (env : Env) (pk : String) (i : Nat) (ev : NostrEvent) :
    NostrEvent :=
  { ev with pubkey := pk, created_at := env.now i, id := "", sig := "" }

/-- nostr-tools `finalizeEvent t sk`: sets `pubkey` from the secret key,
then `id` to the canonical hash of the event, then `sig` to the signature
of `id` under `sk`. -/
def finalizeEvent (env : Env) (t : NostrEvent) (sk : List Nat) : NostrEvent :=
  let withPk := { t with pubkey := env.getPublicKey sk }
  let newId := env.eventHash withPk
  { withPk with id := newId, sig := env.sign newId sk }

/-- The `fetchedEvents.map((event, index) => ...)` cloning loop, threading
the `status` field through the per-event `setStatus` calls.  `i` is the
index of the head of `l` within the original fetched list, `total` the
fetched count. -/
def cloneLoop (env : Env) (pk : String) (sk : List Nat) (total : Nat) :
    Nat → List NostrEvent → String → List NostrEvent × String
  | _, [], status => ([], status)
  | i, ev :: rest, _ =>
    let status :=
      "Cloning event " ++ toString (i + 1) ++ "/" ++ toString total ++ "..."
    let c := finalizeEvent env (cloneTemplate env pk i ev) sk
    let r := cloneLoop env pk sk total (i + 1) rest status
    (c :: r.1, r.2)

/-- The `for (let i = 0; ...)` publish loop over event indices `idxs`.
Each iteration publishes to every relay concurrently via
`Promise.any(relays.map(relay => pool.publish([relay], clonedEvents[i])))`:
the awaited outcome is success iff some relay accepts (`Promise.any`
rejects only when every branch rejects).  On success the 50 ms pacing
delay runs; on failure the `catch` logs and continues, skipping the
delay.  Returns the final `status` and the emitted actions. -/
def publishLoop (env : Env) (relays : List String) (total : Nat) :
    List Nat → String → String × List Action
  | [], status => (status, [])
  | i :: rest, _ =>
    let status :=
      "Publishing event " ++ toString (i + 1) ++ "/" ++ toString total ++ "..."
    let ok := relays.any (fun r => env.accept i r)
    let pr := publishLoop env relays total rest status
    (pr.1,
      (Action.publish i relays ok ::
        (if ok then [Action.delay 50] else [])) ++ pr.2)

/-- Result of the `try { ... }` block: the threaded state, the emitted
actions, and the thrown error message if an exception escaped. -/
structure TryResult where
  st : AppState
  trace : List Action
  thrown : Option String
deriving Repr

/-- The body of the `try` block of `handleCloneEvents`, line by line. -/
def tryBody (env : Env) (st : AppState) : TryResult :=
  if strStartsWith st.npub "npub1" then
    match env.decode st.npub with
    | Except.error msg => ⟨st, [], some msg⟩
    | Except.ok (Decoded.nsec _) => ⟨st, [], some "Invalid npub"⟩
    | Except.ok Decoded.other => ⟨st, [], some "Invalid npub"⟩
    | Except.ok (Decoded.npub pubkeyHex) =>
      let st := { st with status := "Fetching events..." }
      let filt : Filter := ⟨[1], [pubkeyHex], 50⟩
      let fetched := env.querySync st.relays filt
      let tr := [Action.query st.relays filt]
      if fetched.length = 0 then
        ⟨st, tr, some "No events found for this pubkey"⟩
      else
        let st := { st with status :=
          "Found " ++ toString fetched.length ++ " events to clone..." }
        if st.nsec = "" then
          ⟨st, tr, none⟩
        else if strStartsWith st.nsec "nsec1" then
          match env.decode st.nsec with
          | Except.error msg => ⟨st, tr, some msg⟩
          | Except.ok (Decoded.npub _) => ⟨st, tr, some "Invalid nsec"⟩
          | Except.ok Decoded.other => ⟨st, tr, some "Invalid nsec"⟩
          | Except.ok (Decoded.nsec secretKey) =>
            let newPubkey := env.getPublicKey secretKey
            let st := { st with status := "Cloning events..." }
            let cl := cloneLoop env newPubkey secretKey fetched.length
              0 fetched st.status
            let clonedEvents := cl.1
            let st := { st with status := cl.2 }
            let st := { st with status := "Publishing events..." }
            let pb := publishLoop env st.relays clonedEvents.length
              (List.range clonedEvents.length) st.status
            let st := { st with status := pb.1 }
            let st := { st with events := clonedEvents,
                                status := "Complete!" }
            ⟨st, tr ++ pb.2, none⟩
        else
          ⟨st, tr, some "Invalid nsec format. Must start with nsec1"⟩
  else
    ⟨st, [], some "Invalid npub format. Must start with npub1"⟩

/-- `handleCloneEvents`: sets `isLoading`/clears `error`, runs the `try`
body, the `catch` stores the thrown message in `error`, and the `finally`
clears `isLoading` and closes the modal.  Returns the post-invocation
state and the action trace. -/
def handleCloneEvents (env : Env) (st0 : AppState) :
    AppState × List Action :=
  let st := { st0 with isLoading := true, error := none }
  let r := tryBody env st
  let st1 :=
    match r.thrown with
    | none => r.st
    | some msg => { r.st with error := some msg }
  ({ st1 with isLoading := false, isModalOpen := false }, r.trace)

/-- The cloned-event list produced on the fully valid path, as a function
of the environment, the pre-state, the decoded source key `pk` and the
decoded destination secret key `sk`. -/
def mainClones (env : Env) (st0 : AppState) (pk : String) (sk : List Nat) :
    List NostrEvent :=
  (cloneLoop env (env.getPublicKey sk) sk
    (env.querySync st0.relays ⟨[1], [pk], 50⟩).length 0
    (env.querySync st0.relays ⟨[1], [pk], 50⟩) "Cloning events...").1

/-- Closed form of the publish-loop trace: each event index yields one
publish action whose outcome is the first-success race over the relay
set, followed by the 50 ms pacing delay exactly when that publish
succeeded. -/
def pacedTrace (env : Env) (relays : List String) : List Nat → List Action
  | [] => []
  | i :: rest =>
    Action.publish i relays (relays.any (fun r => env.accept i r)) ::
      ((if relays.any (fun r => env.accept i r) then [Action.delay 50]
        else []) ++ pacedTrace env relays rest)

/-- Decides whether a pacing delay always separates two consecutive
publish actions of a trace; `false` when some publish is immediately
followed by another publish. -/
def delaySeparated : List Action → Bool
  | Action.publish _ _ _ :: Action.publish _ _ _ :: _ => false
  | _ :: rest => delaySeparated rest
  | [] => true

/-- Fixture: first source event of the test relay set. -/
def srcEv1 : NostrEvent :=
  ⟨"id1", "srcpub", 1700000001, 1, [["e", "x"]], "hello", "sig1"⟩

/-- Fixture: second source event of the test relay set. -/
def srcEv2 : NostrEvent :=
  ⟨"id2", "srcpub", 1700000002, 1, [], "world", "sig2"⟩

/-- Fixture environment: `npub1good` decodes to the public key `pkhex`,
`nsec1good` to the secret key `[7, 7, 7]`, `npub1odd` decodes but to a
secret-key payload, `nsec1odd` decodes but to a public-key payload, and
anything else fails bech32 decoding.  The relay set holds two events
authored by `pkhex`, and every relay accepts every publish. -/
def baseEnv : Env where
  decode := fun s =>
    if s = "npub1good" then Except.ok (Decoded.npub "pkhex")
    else if s = "nsec1good" then Except.ok (Decoded.nsec [7, 7, 7])
    else if s = "npub1odd" then Except.ok (Decoded.nsec [9])
    else if s = "nsec1odd" then Except.ok (Decoded.npub "pkother")
    else Except.error "bech32 decode failed"
  getPublicKey := fun _ => "destpub"
  querySync := fun _ f => if f.authors = ["pkhex"] then [srcEv1, srcEv2] else []
  now := fun i => 1800000000 + i
  eventHash := fun e => "hash:" ++ e.content ++ ":" ++ toString e.created_at
  sign := fun h _ => "signed:" ++ h
  accept := fun _ _ => true

/-- Fixture environment whose relay set rejects every publish attempt for
the event at index `0` and accepts all others. -/
def failFirstEnv : Env :=
  { baseEnv with accept := fun i _ => decide (i ≠ 0) }

/-- Fixture environment whose relay query returns no events. -/
def emptyQueryEnv : Env :=
  { baseEnv with querySync := fun _ _ => [] }

/-- Fixture state: valid npub and nsec, two relays. -/
def goodState : AppState :=
  ⟨"npub1good", ["wss://a", "wss://b"], [], "nsec1good", false, none, "",
   true⟩

/-- Fixture state: valid npub, destination secret key left empty. -/
def noNsecState : AppState :=
  ⟨"npub1good", ["wss://a"], [srcEv1], "", false, none, "", true⟩

/-- Fixture state: valid npub, malformed nsec (wrong prefix). -/
def badNsecState : AppState :=
  ⟨"npub1good", ["wss://a"], [srcEv1], "xyz", false, none, "", true⟩

/-- Fixture state: npub with the wrong prefix. -/
def badNpubState : AppState :=
  ⟨"xpub1good", ["wss://a"], [srcEv1], "nsec1good", false, none, "", true⟩

/-- Fixture state: npub that decodes structurally but to a secret-key
payload. -/
def wrongTypeNpubState : AppState :=
  ⟨"npub1odd", ["wss://a"], [srcEv1], "nsec1good", false, none, "", true⟩

/-- The cloning loop yields one cloned event per source event. -/
theorem cloneLoop_fst_length (env : Env) (pk : String) (sk : List Nat)
    (total : Nat) :
    ∀ (l : List NostrEvent) (i : Nat) (s : String),
      (cloneLoop env pk sk total i l s).1.length = l.length := by
  intro l
  induction l with
  | nil => intro i s; simp [cloneLoop]
  | cons ev rest ih => intro i s; simp [cloneLoop, ih]

/-- Elementwise description of the cloning loop: the `j`-th clone is the
`j`-th source event's template, timestamped with the clock sample for its
absolute index, signed by `finalizeEvent`. -/
theorem cloneLoop_fst_getElem? (env : Env) (pk : String) (sk : List Nat)
    (total : Nat) :
    ∀ (l : List NostrEvent) (i j : Nat) (s : String),
      (cloneLoop env pk sk total i l s).1[j]? =
        (l[j]?).map
          (fun ev => finalizeEvent env (cloneTemplate env pk (i + j) ev) sk) := by
  intro l
  induction l with
  | nil => intro i j s; simp [cloneLoop]
  | cons ev rest ih =>
    intro i j s
    cases j with
    | zero => simp [cloneLoop]
    | succ j =>
      have harith : i + 1 + j = i + (j + 1) := by omega
      simp [cloneLoop, ih, harith]

/-- The publish loop emits exactly one publish action per event index, in
order, whose outcome is the any-relay-accepts race. -/
theorem publishLoop_filter_isPublish (env : Env) (relays : List String)
    (total : Nat) :
    ∀ (idxs : List Nat) (s : String),
      ((publishLoop env relays total idxs s).2).filter Action.isPublish =
        idxs.map (fun i =>
          Action.publish i relays (relays.any (fun r => env.accept i r))) := by
  intro idxs
  induction idxs with
  | nil => intro s; simp [publishLoop]
  | cons i rest ih =>
    intro s
    by_cases h : relays.any (fun r => env.accept i r) <;>
      simp [publishLoop, h, ih, Action.isPublish, List.filter_cons,
        List.filter_append]

/-- The publish loop issues no relay query. -/
theorem publishLoop_filter_isQuery (env : Env) (relays : List String)
    (total : Nat) :
    ∀ (idxs : List Nat) (s : String),
      ((publishLoop env relays total idxs s).2).filter Action.isQuery = [] := by
  intro idxs
  induction idxs with
  | nil => intro s; simp [publishLoop]
  | cons i rest ih =>
    intro s
    by_cases h : relays.any (fun r => env.accept i r) <;>
      simp [publishLoop, h, ih, Action.isQuery, List.filter_cons,
        List.filter_append]

/-- The publish loop's trace in closed form: the pacing delay follows a
publish exactly when that publish succeeded. -/
theorem publishLoop_snd_eq_pacedTrace (env : Env) (relays : List String)
    (total : Nat) :
    ∀ (idxs : List Nat) (s : String),
      (publishLoop env relays total idxs s).2 = pacedTrace env relays idxs := by
  intro idxs
  induction idxs with
  | nil => intro s; simp [publishLoop, pacedTrace]
  | cons i rest ih =>
    intro s
    simp [publishLoop, pacedTrace, ih]

/-- Reduction of `handleCloneEvents` on the fully valid path: npub has the
right prefix and decodes to a public key, the query is non-empty, and the
nsec is present, has the right prefix, and decodes to a secret key. -/
theorem handleCloneEvents_main_path (env : Env) (st0 : AppState)
    (pk : String) (sk : List Nat)
    (h1 : strStartsWith st0.npub "npub1" = true)
    (h2 : env.decode st0.npub = Except.ok (Decoded.npub pk))
    (hne : env.querySync st0.relays ⟨[1], [pk], 50⟩ ≠ [])
    (h4 : st0.nsec ≠ "")
    (h5 : strStartsWith st0.nsec "nsec1" = true)
    (h6 : env.decode st0.nsec = Except.ok (Decoded.nsec sk)) :
    handleCloneEvents env st0 =
      ({ st0 with isLoading := false, error := none, isModalOpen := false,
                  events := mainClones env st0 pk sk,
                  status := "Complete!" },
       Action.query st0.relays ⟨[1], [pk], 50⟩ ::
         (publishLoop env st0.relays (mainClones env st0 pk sk).length
           (List.range (mainClones env st0 pk sk).length)
           "Publishing events...").2) := by
  simp [handleCloneEvents, tryBody, mainClones, h1, h2, h4, h5, h6, hne,
    List.length_eq_zero]

/-- Vacuous use of the total count in the cloning loop aside, the loop is
independent of the `accept` oracle, so the cloned list is too. -/
theorem cloneLoop_accept_indep (env : Env) (a : Nat → String → Bool)
    (pk : String) (sk : List Nat) (total : Nat) :
    ∀ (l : List NostrEvent) (i : Nat) (s : String),
      cloneLoop { env with accept := a } pk sk total i l s =
        cloneLoop env pk sk total i l s := by
  intro l
  induction l with
  | nil => intro i s; simp [cloneLoop]
  | cons ev rest ih =>
    intro i s
    simp [cloneLoop, ih, finalizeEvent, cloneTemplate]

/-- The cloned-event list does not depend on the publish oracle. -/
theorem mainClones_accept_indep (env : Env) (a : Nat → String → Bool)
    (st0 : AppState) (pk : String) (sk : List Nat) :
    mainClones { env with accept := a } st0 pk sk =
      mainClones env st0 pk sk := by
  simp [mainClones, cloneLoop_accept_indep]

/-- Claim C1: on the valid path, each fetched source event yields exactly
one cloned event with the same kind, tags and content, author set to the
public key derived from the destination secret key, `created_at` set to
the clock sample taken at that event's transformation (not the source
timestamp), and id/signature cleared and re-derived by signing the new
template. -/
theorem C1_transform_shape (env : Env) (st0 : AppState) (pk : String)
    (sk : List Nat)
    (h1 : strStartsWith st0.npub "npub1" = true)
    (h2 : env.decode st0.npub = Except.ok (Decoded.npub pk))
    (hne : env.querySync st0.relays ⟨[1], [pk], 50⟩ ≠ [])
    (h4 : st0.nsec ≠ "")
    (h5 : strStartsWith st0.nsec "nsec1" = true)
    (h6 : env.decode st0.nsec = Except.ok (Decoded.nsec sk)) :
    (handleCloneEvents env st0).1.events.length =
      (env.querySync st0.relays ⟨[1], [pk], 50⟩).length ∧
    ∀ i ev, (env.querySync st0.relays ⟨[1], [pk], 50⟩)[i]? = some ev →
      ∃ c, (handleCloneEvents env st0).1.events[i]? = some c ∧
        c.kind = ev.kind ∧ c.tags = ev.tags ∧ c.content = ev.content ∧
        c.pubkey = env.getPublicKey sk ∧
        c.created_at = env.now i ∧
        c.id = env.eventHash
          { ev with pubkey := env.getPublicKey sk,
                    created_at := env.now i, id := "", sig := "" } ∧
        c.sig = env.sign c.id sk := by
  rw [handleCloneEvents_main_path env st0 pk sk h1 h2 hne h4 h5 h6]
  constructor
  · simp [mainClones, cloneLoop_fst_length]
  · intro i ev hev
    refine ⟨finalizeEvent env
      (cloneTemplate env (env.getPublicKey sk) i ev) sk, ?_,
      rfl, rfl, rfl, rfl, rfl, rfl, rfl⟩
    simp [mainClones, cloneLoop_fst_getElem?, hev]

/-- Claim C2: on the valid path, every cloned event is published in fetch
order to the full relay set; the per-event outcome is the first-success
race (success iff some relay accepts, failure only when every relay
fails); an all-relay failure does not abort the loop, and a partially
published run still completes without a pipeline-level error. -/
theorem C2_publish_semantics (env : Env) (st0 : AppState) (pk : String)
    (sk : List Nat)
    (h1 : strStartsWith st0.npub "npub1" = true)
    (h2 : env.decode st0.npub = Except.ok (Decoded.npub pk))
    (hne : env.querySync st0.relays ⟨[1], [pk], 50⟩ ≠ [])
    (h4 : st0.nsec ≠ "")
    (h5 : strStartsWith st0.nsec "nsec1" = true)
    (h6 : env.decode st0.nsec = Except.ok (Decoded.nsec sk)) :
    (handleCloneEvents env st0).1.error = none ∧
    (handleCloneEvents env st0).1.status = "Complete!" ∧
    ((handleCloneEvents env st0).2).filter Action.isPublish =
      (List.range (env.querySync st0.relays ⟨[1], [pk], 50⟩).length).map
        (fun i => Action.publish i st0.relays
          (st0.relays.any (fun r => env.accept i r))) := by
  rw [handleCloneEvents_main_path env st0 pk sk h1 h2 hne h4 h5 h6]
  refine ⟨rfl, rfl, ?_⟩
  simp [List.filter_cons, Action.isPublish, publishLoop_filter_isPublish,
    mainClones, cloneLoop_fst_length]

/-- Claim C3 counterexample: with a valid npub, a non-empty query result
and the malformed destination secret key `"xyz"`, the relay query IS
issued (it appears in the trace) before the nsec validation fails, so the
pipeline does not fail during input validation before Querying. -/
theorem C3_query_issued_before_nsec_check :
    (handleCloneEvents baseEnv badNsecState).2 =
      [Action.query ["wss://a"] ⟨[1], ["pkhex"], 50⟩] ∧
    ((handleCloneEvents baseEnv badNsecState).2).filter Action.isQuery ≠ [] ∧
    (handleCloneEvents baseEnv badNsecState).1.error =
      some "Invalid nsec format. Must start with nsec1" := by
  refine ⟨by decide, by decide, by decide⟩

/-- Claim C3 amended: a provided but malformed destination secret key
(wrong prefix, or decoding to a different key category) makes the pipeline
fail only after Querying — the relay query is issued first — and the
failure still precedes transformation and publishing: the trace holds the
query and nothing else, and the surfaced events are untouched. -/
theorem C3_bad_nsec_fails_after_query (env : Env) (st0 : AppState)
    (pk : String)
    (h1 : strStartsWith st0.npub "npub1" = true)
    (h2 : env.decode st0.npub = Except.ok (Decoded.npub pk))
    (hne : env.querySync st0.relays ⟨[1], [pk], 50⟩ ≠ [])
    (h4 : st0.nsec ≠ "")
    (hbad : strStartsWith st0.nsec "nsec1" = false ∨
      ∀ sk, env.decode st0.nsec ≠ Except.ok (Decoded.nsec sk)) :
    (handleCloneEvents env st0).1.error ≠ none ∧
    (handleCloneEvents env st0).1.events = st0.events ∧
    (handleCloneEvents env st0).2 =
      [Action.query st0.relays ⟨[1], [pk], 50⟩] := by
  rcases hbad with hb | hb
  · simp [handleCloneEvents, tryBody, h1, h2, hne, h4, hb,
      List.length_eq_zero]
  · by_cases hsw : strStartsWith st0.nsec "nsec1" = true
    · rcases hdec : env.decode st0.nsec with msg | d
      · simp [handleCloneEvents, tryBody, h1, h2, hne, h4, hsw, hdec,
          List.length_eq_zero]
      · cases d with
        | npub s =>
          simp [handleCloneEvents, tryBody, h1, h2, hne, h4, hsw, hdec,
            List.length_eq_zero]
        | nsec s => exact absurd hdec (hb s)
        | other =>
          simp [handleCloneEvents, tryBody, h1, h2, hne, h4, hsw, hdec,
            List.length_eq_zero]
    · have hsw' : strStartsWith st0.nsec "nsec1" = false := by
        cases hx : strStartsWith st0.nsec "nsec1" <;> simp_all
      simp [handleCloneEvents, tryBody, h1, h2, hne, h4, hsw',
        List.length_eq_zero]

/-- Claim C4: an empty relay query result makes the pipeline fail with the
`NoEventsFound` message, with no transformation (the surfaced events are
untouched) and no publish attempt (the trace holds only the query). -/
theorem C4_empty_query_fails (env : Env) (st0 : AppState) (pk : String)
    (h1 : strStartsWith st0.npub "npub1" = true)
    (h2 : env.decode st0.npub = Except.ok (Decoded.npub pk))
    (hempty : env.querySync st0.relays ⟨[1], [pk], 50⟩ = []) :
    (handleCloneEvents env st0).1.error =
      some "No events found for this pubkey" ∧
    (handleCloneEvents env st0).1.events = st0.events ∧
    (handleCloneEvents env st0).2 =
      [Action.query st0.relays ⟨[1], [pk], 50⟩] := by
  simp [handleCloneEvents, tryBody, h1, h2, hempty]

/-- Claim C5 counterexample: when every relay rejects the first event, its
publish action is immediately followed by the second event's publish with
no 50 ms delay in between — the inter-publish delay is not awaited after
a failed publish outcome. -/
theorem C5_delay_skipped_on_failure :
    (handleCloneEvents failFirstEnv goodState).2 =
      [Action.query ["wss://a", "wss://b"] ⟨[1], ["pkhex"], 50⟩,
       Action.publish 0 ["wss://a", "wss://b"] false,
       Action.publish 1 ["wss://a", "wss://b"] true,
       Action.delay 50] ∧
    delaySeparated (handleCloneEvents failFirstEnv goodState).2 = false := by
  refine ⟨by decide, by decide⟩

/-- Claim C5 amended: on the valid path the trace is the query followed,
for each event index in fetch order, by its publish action and then the
50 ms pacing delay exactly when that publish succeeded; after a failed
publish the next event's publish begins with no delay. -/
theorem C5_delay_follows_successful_publish (env : Env) (st0 : AppState)
    (pk : String) (sk : List Nat)
    (h1 : strStartsWith st0.npub "npub1" = true)
    (h2 : env.decode st0.npub = Except.ok (Decoded.npub pk))
    (hne : env.querySync st0.relays ⟨[1], [pk], 50⟩ ≠ [])
    (h4 : st0.nsec ≠ "")
    (h5 : strStartsWith st0.nsec "nsec1" = true)
    (h6 : env.decode st0.nsec = Except.ok (Decoded.nsec sk)) :
    (handleCloneEvents env st0).2 =
      Action.query st0.relays ⟨[1], [pk], 50⟩ ::
        pacedTrace env st0.relays
          (List.range (env.querySync st0.relays ⟨[1], [pk], 50⟩).length) := by
  rw [handleCloneEvents_main_path env st0 pk sk h1 h2 hne h4 h5 h6]
  simp [publishLoop_snd_eq_pacedTrace, mainClones, cloneLoop_fst_length]

/-- Claim C6: with the destination secret key omitted and a non-empty
query result, the invocation is a no-op after Querying: no error, no
change to the surfaced events, no publish attempt, and the status left at
the found-events message. -/
theorem C6_no_nsec_early_exit (env : Env) (st0 : AppState) (pk : String)
    (h1 : strStartsWith st0.npub "npub1" = true)
    (h2 : env.decode st0.npub = Except.ok (Decoded.npub pk))
    (hne : env.querySync st0.relays ⟨[1], [pk], 50⟩ ≠ [])
    (hnil : st0.nsec = "") :
    (handleCloneEvents env st0).1.error = none ∧
    (handleCloneEvents env st0).1.events = st0.events ∧
    (handleCloneEvents env st0).2 =
      [Action.query st0.relays ⟨[1], [pk], 50⟩] ∧
    (handleCloneEvents env st0).1.status =
      "Found " ++
        toString (env.querySync st0.relays ⟨[1], [pk], 50⟩).length ++
        " events to clone..." := by
  simp [handleCloneEvents, tryBody, h1, h2, hne, hnil, List.length_eq_zero]

/-- Claim C7: a source key input without the `npub1` prefix fails with the
`InvalidFormat` message, and one that decodes structurally but to a
different key category fails with the `WrongKeyType` message (`"Invalid
npub"`); in both cases the invocation aborts with an empty trace — no
query and no publish.  (An input the pipeline structurally decodes is
necessarily `npub1`-prefixed, since the prefix check runs first.) -/
theorem C7_npub_validation (env : Env) (st0 : AppState) :
    (strStartsWith st0.npub "npub1" = false →
      (handleCloneEvents env st0).1.error =
        some "Invalid npub format. Must start with npub1" ∧
      (handleCloneEvents env st0).2 = []) ∧
    (∀ d : Decoded, strStartsWith st0.npub "npub1" = true →
      env.decode st0.npub = Except.ok d →
      (∀ s, d ≠ Decoded.npub s) →
      (handleCloneEvents env st0).1.error = some "Invalid npub" ∧
      (handleCloneEvents env st0).2 = []) := by
  constructor
  · intro h
    simp [handleCloneEvents, tryBody, h]
  · intro d h1 h2 hd
    cases d with
    | npub s => exact absurd rfl (hd s)
    | nsec s => simp [handleCloneEvents, tryBody, h1, h2]
    | other => simp [handleCloneEvents, tryBody, h1, h2]

/-- Claim C8: an invocation that reaches Done surfaces one cloned event
per fetched source event together with the final status message, with no
pipeline-level error; and the surfaced component state is identical for
every publish oracle — per-event publish outcomes are not exposed to the
caller. -/
theorem C8_done_surfaces_clones (env : Env) (st0 : AppState) (pk : String)
    (sk : List Nat)
    (h1 : strStartsWith st0.npub "npub1" = true)
    (h2 : env.decode st0.npub = Except.ok (Decoded.npub pk))
    (hne : env.querySync st0.relays ⟨[1], [pk], 50⟩ ≠ [])
    (h4 : st0.nsec ≠ "")
    (h5 : strStartsWith st0.nsec "nsec1" = true)
    (h6 : env.decode st0.nsec = Except.ok (Decoded.nsec sk)) :
    (handleCloneEvents env st0).1.events.length =
      (env.querySync st0.relays ⟨[1], [pk], 50⟩).length ∧
    (handleCloneEvents env st0).1.status = "Complete!" ∧
    (handleCloneEvents env st0).1.error = none ∧
    ∀ a : Nat → String → Bool,
      (handleCloneEvents { env with accept := a } st0).1 =
        (handleCloneEvents env st0).1 := by
  rw [handleCloneEvents_main_path env st0 pk sk h1 h2 hne h4 h5 h6]
  refine ⟨by simp [mainClones, cloneLoop_fst_length], rfl, rfl, ?_⟩
  intro a
  rw [handleCloneEvents_main_path { env with accept := a } st0 pk sk h1 h2
    hne h4 h5 h6]
  simp [mainClones_accept_indep]

/-- Claim C9: once the source key is decoded, the relay query is issued
exactly once, against the configured relay set, filtered by the decoded
author key with kind filter `[1]` (text notes) and limit `50` — on every
continuation of the invocation. -/
theorem C9_query_filter (env : Env) (st0 : AppState) (pk : String)
    (h1 : strStartsWith st0.npub "npub1" = true)
    (h2 : env.decode st0.npub = Except.ok (Decoded.npub pk)) :
    ((handleCloneEvents env st0).2).filter Action.isQuery =
      [Action.query st0.relays ⟨[1], [pk], 50⟩] := by
  by_cases hq : env.querySync st0.relays ⟨[1], [pk], 50⟩ = []
  · simp [handleCloneEvents, tryBody, h1, h2, hq, Action.isQuery]
  · by_cases hn : st0.nsec = ""
    · simp [handleCloneEvents, tryBody, h1, h2, hq, hn, Action.isQuery,
        List.length_eq_zero]
    · by_cases hsw : strStartsWith st0.nsec "nsec1" = true
      · rcases hdec : env.decode st0.nsec with msg | d
        · simp [handleCloneEvents, tryBody, h1, h2, hq, hn, hsw, hdec,
            Action.isQuery, List.length_eq_zero]
        · cases d <;>
            simp [handleCloneEvents, tryBody, h1, h2, hq, hn, hsw, hdec,
              Action.isQuery, List.length_eq_zero, List.filter_cons,
              List.filter_append, publishLoop_filter_isQuery]
      · have hsw' : strStartsWith st0.nsec "nsec1" = false := by
          cases hx : strStartsWith st0.nsec "nsec1" <;> simp_all
        simp [handleCloneEvents, tryBody, h1, h2, hq, hn, hsw',
          Action.isQuery, List.length_eq_zero]

/-- Case split on the try body: either it completes without a thrown
error and leaves the error field untouched, or it throws and leaves the
events field untouched. -/
theorem tryBody_shape (env : Env) (st : AppState) :
    ((tryBody env st).thrown = none ∧ (tryBody env st).st.error = st.error) ∨
    ((tryBody env st).thrown ≠ none ∧
      (tryBody env st).st.events = st.events) := by
  by_cases h1 : strStartsWith st.npub "npub1" = true
  · rcases hdec : env.decode st.npub with msg | d
    · right; simp [tryBody, h1, hdec]
    · cases d with
      | npub pk =>
        by_cases hq : (env.querySync st.relays ⟨[1], [pk], 50⟩).length = 0
        · right; simp [tryBody, h1, hdec, hq]
        · by_cases hn : st.nsec = ""
          · left; simp [tryBody, h1, hdec, hq, hn]
          · by_cases hsw : strStartsWith st.nsec "nsec1" = true
            · rcases hdec2 : env.decode st.nsec with msg2 | d2
              · right; simp [tryBody, h1, hdec, hq, hn, hsw, hdec2]
              · cases d2 with
                | npub s => right; simp [tryBody, h1, hdec, hq, hn, hsw, hdec2]
                | nsec s => left; simp [tryBody, h1, hdec, hq, hn, hsw, hdec2]
                | other => right; simp [tryBody, h1, hdec, hq, hn, hsw, hdec2]
            · have hsw' : strStartsWith st.nsec "nsec1" = false := by
                cases hx : strStartsWith st.nsec "nsec1" <;> simp_all
              right; simp [tryBody, h1, hdec, hq, hn, hsw']
      | nsec s => right; simp [tryBody, h1, hdec]
      | other => right; simp [tryBody, h1, hdec]
  · have h1' : strStartsWith st.npub "npub1" = false := by
      cases hx : strStartsWith st.npub "npub1" <;> simp_all
    right; simp [tryBody, h1']

/-- Claim C10: any invocation that ends with a surfaced error message
leaves the surfaced cloned-events list exactly as it was before the
invocation began. -/
theorem C10_error_preserves_events (env : Env) (st0 : AppState)
    (msg : String)
    (h : (handleCloneEvents env st0).1.error = some msg) :
    (handleCloneEvents env st0).1.events = st0.events := by
  rcases tryBody_shape env { st0 with isLoading := true, error := none }
    with ⟨hn, he⟩ | ⟨hs, hev⟩
  · exfalso
    simp [handleCloneEvents, hn] at h
    rw [he] at h
    simp at h
  · obtain ⟨m, hm⟩ := Option.ne_none_iff_exists'.mp hs
    simp [handleCloneEvents, hm, hev]

/-- Witness for claim C1 at the two-event fixture. -/
theorem C1_transform_shape_witness :
    strStartsWith goodState.npub "npub1" = true ∧
    baseEnv.decode goodState.npub = Except.ok (Decoded.npub "pkhex") ∧
    baseEnv.querySync goodState.relays ⟨[1], ["pkhex"], 50⟩ ≠ [] ∧
    goodState.nsec ≠ "" ∧
    strStartsWith goodState.nsec "nsec1" = true ∧
    baseEnv.decode goodState.nsec = Except.ok (Decoded.nsec [7, 7, 7]) ∧
    ((handleCloneEvents baseEnv goodState).1.events.length =
      (baseEnv.querySync goodState.relays ⟨[1], ["pkhex"], 50⟩).length ∧
     ∀ i ev,
       (baseEnv.querySync goodState.relays ⟨[1], ["pkhex"], 50⟩)[i]? =
         some ev →
       ∃ c, (handleCloneEvents baseEnv goodState).1.events[i]? = some c ∧
         c.kind = ev.kind ∧ c.tags = ev.tags ∧ c.content = ev.content ∧
         c.pubkey = baseEnv.getPublicKey [7, 7, 7] ∧
         c.created_at = baseEnv.now i ∧
         c.id = baseEnv.eventHash
           { ev with pubkey := baseEnv.getPublicKey [7, 7, 7],
                     created_at := baseEnv.now i, id := "", sig := "" } ∧
         c.sig = baseEnv.sign c.id [7, 7, 7]) :=
  ⟨rfl, rfl, by decide, by decide, rfl, rfl,
    C1_transform_shape baseEnv goodState "pkhex" [7, 7, 7] rfl rfl
      (by decide) (by decide) rfl rfl⟩

/-- Witness for claim C2 at the fixture whose relays all reject the first
event: the run is partially published yet ends with no error. -/
theorem C2_publish_semantics_witness :
    strStartsWith goodState.npub "npub1" = true ∧
    failFirstEnv.decode goodState.npub = Except.ok (Decoded.npub "pkhex") ∧
    failFirstEnv.querySync goodState.relays ⟨[1], ["pkhex"], 50⟩ ≠ [] ∧
    goodState.nsec ≠ "" ∧
    strStartsWith goodState.nsec "nsec1" = true ∧
    failFirstEnv.decode goodState.nsec = Except.ok (Decoded.nsec [7, 7, 7]) ∧
    ((handleCloneEvents failFirstEnv goodState).1.error = none ∧
     (handleCloneEvents failFirstEnv goodState).1.status = "Complete!" ∧
     ((handleCloneEvents failFirstEnv goodState).2).filter Action.isPublish =
       (List.range
         (failFirstEnv.querySync goodState.relays ⟨[1], ["pkhex"], 50⟩).length).map
         (fun i => Action.publish i goodState.relays
           (goodState.relays.any (fun r => failFirstEnv.accept i r)))) :=
  ⟨rfl, rfl, by decide, by decide, rfl, rfl,
    C2_publish_semantics failFirstEnv goodState "pkhex" [7, 7, 7] rfl rfl
      (by decide) (by decide) rfl rfl⟩

/-- Witness for the amended claim C3 at the malformed-nsec fixture. -/
theorem C3_bad_nsec_fails_after_query_witness :
    strStartsWith badNsecState.npub "npub1" = true ∧
    baseEnv.decode badNsecState.npub = Except.ok (Decoded.npub "pkhex") ∧
    baseEnv.querySync badNsecState.relays ⟨[1], ["pkhex"], 50⟩ ≠ [] ∧
    badNsecState.nsec ≠ "" ∧
    strStartsWith badNsecState.nsec "nsec1" = false ∧
    ((handleCloneEvents baseEnv badNsecState).1.error ≠ none ∧
     (handleCloneEvents baseEnv badNsecState).1.events =
       badNsecState.events ∧
     (handleCloneEvents baseEnv badNsecState).2 =
       [Action.query badNsecState.relays ⟨[1], ["pkhex"], 50⟩]) :=
  ⟨rfl, rfl, by decide, by decide, rfl,
    C3_bad_nsec_fails_after_query baseEnv badNsecState "pkhex" rfl rfl
      (by decide) (by decide) (Or.inl rfl)⟩

/-- Witness for claim C4 at the empty-query fixture. -/
theorem C4_empty_query_fails_witness :
    strStartsWith goodState.npub "npub1" = true ∧
    emptyQueryEnv.decode goodState.npub = Except.ok (Decoded.npub "pkhex") ∧
    emptyQueryEnv.querySync goodState.relays ⟨[1], ["pkhex"], 50⟩ = [] ∧
    ((handleCloneEvents emptyQueryEnv goodState).1.error =
      some "No events found for this pubkey" ∧
     (handleCloneEvents emptyQueryEnv goodState).1.events =
       goodState.events ∧
     (handleCloneEvents emptyQueryEnv goodState).2 =
       [Action.query goodState.relays ⟨[1], ["pkhex"], 50⟩]) :=
  ⟨rfl, rfl, rfl,
    C4_empty_query_fails emptyQueryEnv goodState "pkhex" rfl rfl rfl⟩

/-- Witness for the amended claim C5 at the fixture whose relays all
reject the first event. -/
theorem C5_delay_follows_successful_publish_witness :
    strStartsWith goodState.npub "npub1" = true ∧
    failFirstEnv.decode goodState.npub = Except.ok (Decoded.npub "pkhex") ∧
    failFirstEnv.querySync goodState.relays ⟨[1], ["pkhex"], 50⟩ ≠ [] ∧
    goodState.nsec ≠ "" ∧
    strStartsWith goodState.nsec "nsec1" = true ∧
    failFirstEnv.decode goodState.nsec = Except.ok (Decoded.nsec [7, 7, 7]) ∧
    (handleCloneEvents failFirstEnv goodState).2 =
      Action.query goodState.relays ⟨[1], ["pkhex"], 50⟩ ::
        pacedTrace failFirstEnv goodState.relays
          (List.range
            (failFirstEnv.querySync goodState.relays
              ⟨[1], ["pkhex"], 50⟩).length) :=
  ⟨rfl, rfl, by decide, by decide, rfl, rfl,
    C5_delay_follows_successful_publish failFirstEnv goodState "pkhex"
      [7, 7, 7] rfl rfl (by decide) (by decide) rfl rfl⟩

/-- Witness for claim C6 at the omitted-nsec fixture. -/
theorem C6_no_nsec_early_exit_witness :
    strStartsWith noNsecState.npub "npub1" = true ∧
    baseEnv.decode noNsecState.npub = Except.ok (Decoded.npub "pkhex") ∧
    baseEnv.querySync noNsecState.relays ⟨[1], ["pkhex"], 50⟩ ≠ [] ∧
    noNsecState.nsec = "" ∧
    ((handleCloneEvents baseEnv noNsecState).1.error = none ∧
     (handleCloneEvents baseEnv noNsecState).1.events = noNsecState.events ∧
     (handleCloneEvents baseEnv noNsecState).2 =
       [Action.query noNsecState.relays ⟨[1], ["pkhex"], 50⟩] ∧
     (handleCloneEvents baseEnv noNsecState).1.status =
       "Found " ++
         toString
           (baseEnv.querySync noNsecState.relays ⟨[1], ["pkhex"], 50⟩).length
         ++ " events to clone...") :=
  ⟨rfl, rfl, by decide, rfl,
    C6_no_nsec_early_exit baseEnv noNsecState "pkhex" rfl rfl
      (by decide) rfl⟩

/-- Witness for claim C7: the wrong-prefix case at `xpub1good` and the
wrong-category case at `npub1odd` (which decodes to a secret key). -/
theorem C7_npub_validation_witness :
    (strStartsWith badNpubState.npub "npub1" = false ∧
     (handleCloneEvents baseEnv badNpubState).1.error =
       some "Invalid npub format. Must start with npub1" ∧
     (handleCloneEvents baseEnv badNpubState).2 = []) ∧
    (strStartsWith wrongTypeNpubState.npub "npub1" = true ∧
     baseEnv.decode wrongTypeNpubState.npub =
       Except.ok (Decoded.nsec [9]) ∧
     (handleCloneEvents baseEnv wrongTypeNpubState).1.error =
       some "Invalid npub" ∧
     (handleCloneEvents baseEnv wrongTypeNpubState).2 = []) :=
  ⟨⟨rfl, (C7_npub_validation baseEnv badNpubState).1 rfl⟩,
   ⟨rfl, rfl, (C7_npub_validation baseEnv wrongTypeNpubState).2
     (Decoded.nsec [9]) rfl rfl (fun _ h => nomatch h)⟩⟩

/-- Witness for claim C8 at the two-event fixture. -/
theorem C8_done_surfaces_clones_witness :
    strStartsWith goodState.npub "npub1" = true ∧
    baseEnv.decode goodState.npub = Except.ok (Decoded.npub "pkhex") ∧
    baseEnv.querySync goodState.relays ⟨[1], ["pkhex"], 50⟩ ≠ [] ∧
    goodState.nsec ≠ "" ∧
    strStartsWith goodState.nsec "nsec1" = true ∧
    baseEnv.decode goodState.nsec = Except.ok (Decoded.nsec [7, 7, 7]) ∧
    ((handleCloneEvents baseEnv goodState).1.events.length =
      (baseEnv.querySync goodState.relays ⟨[1], ["pkhex"], 50⟩).length ∧
     (handleCloneEvents baseEnv goodState).1.status = "Complete!" ∧
     (handleCloneEvents baseEnv goodState).1.error = none ∧
     ∀ a : Nat → String → Bool,
       (handleCloneEvents { baseEnv with accept := a } goodState).1 =
         (handleCloneEvents baseEnv goodState).1) :=
  ⟨rfl, rfl, by decide, by decide, rfl, rfl,
    C8_done_surfaces_clones baseEnv goodState "pkhex" [7, 7, 7] rfl rfl
      (by decide) (by decide) rfl rfl⟩

/-- Witness for claim C9 at the two-event fixture. -/
theorem C9_query_filter_witness :
    strStartsWith goodState.npub "npub1" = true ∧
    baseEnv.decode goodState.npub = Except.ok (Decoded.npub "pkhex") ∧
    ((handleCloneEvents baseEnv goodState).2).filter Action.isQuery =
      [Action.query goodState.relays ⟨[1], ["pkhex"], 50⟩] :=
  ⟨rfl, rfl, C9_query_filter baseEnv goodState "pkhex" rfl rfl⟩

/-- Witness for claim C10 at the wrong-prefix fixture, whose pre-state
holds one event from a previous run. -/
theorem C10_error_preserves_events_witness :
    (handleCloneEvents baseEnv badNpubState).1.error =
      some "Invalid npub format. Must start with npub1" ∧
    (handleCloneEvents baseEnv badNpubState).1.events =
      badNpubState.events :=
  ⟨rfl, C10_error_preserves_events baseEnv badNpubState
    "Invalid npub format. Must start with npub1" rfl⟩

end Excalibur
